import Mathlib

/-!
Verification of the ping-mediaplane signaling server (mediasoup/Express
orchestration layer).  The definitions below are a shallow embedding of the
most complete server variant, `lib/api.js` (plus `lib/state.js`,
`lib/mediasoup-worker.js`, `config.js`, and the `createWebRtcTransport`
variants in `server.js`).  Opaque engine-assigned payloads (RTP parameters,
capabilities, DTLS parameters, consumer type) are modelled as `Nat`; IDs are
`Nat`; the three registry maps of `lib/state.js` are association lists keyed
by the `id` field.  Engine behaviour (mediasoup) is external to the
repository; where a handler's effect depends on it, the engine's answer is a
parameter of the handler (`engineOk` for the try/catch, `canConsumeResult`
for `router.canConsume`), and engine event delivery is modelled from the
spec as noted on the individual definitions.
-/

namespace MediaPlane

inductive MediaKind where
  | audio
  | video
deriving DecidableEq

/-- A WebRTC transport handle as stored in `serverState.transports`. -/
structure Transport where
  id : Nat
  connected : Bool
deriving DecidableEq

/-- A producer handle as stored in `serverState.producers`: created by
`transport.produce`, bound to its owning transport. -/
structure Producer where
  id : Nat
  transportId : Nat
  kind : MediaKind
  rtpParameters : Nat
  paused : Bool
deriving DecidableEq

/-- A consumer handle as stored in `serverState.consumers`: created by
`recvTransport.consume`, holding a back-reference to its source producer. -/
structure Consumer where
  id : Nat
  transportId : Nat
  producerId : Nat
  kind : MediaKind
  rtpParameters : Nat
  type : Nat
  paused : Bool
  producerPaused : Bool
deriving DecidableEq

/-- `lib/state.js`: the three registry maps. -/
structure ServerState where
  transports : List Transport
  producers : List Producer
  consumers : List Consumer
deriving DecidableEq

/-- `serverState.transports.get(transportId)` -/
def lookupTransport (s : ServerState) (i : Nat) : Option Transport :=
  s.transports.find? (fun t => t.id == i)

/-- `serverState.producers.get(producerId)` -/
def lookupProducer (s : ServerState) (i : Nat) : Option Producer :=
  s.producers.find? (fun p => p.id == i)

/-- `serverState.consumers.get(consumerId)` -/
def lookupConsumer (s : ServerState) (i : Nat) : Option Consumer :=
  s.consumers.find? (fun c => c.id == i)

/-- Calls issued to the external mediasoup engine by the handlers. -/
inductive EngineCall where
  | connectCall (transportId dtlsParameters : Nat)
  | produceCall (transportId : Nat) (kind : MediaKind) (rtpParameters : Nat)
  | canConsumeCall (producerId rtpCapabilities : Nat)
  | consumeCall (transportId producerId rtpCapabilities : Nat) (paused : Bool)
  | resumeCall (consumerId : Nat)
deriving DecidableEq

def EngineCall.isConsumeCall : EngineCall → Bool
  | .consumeCall _ _ _ _ => true
  | _ => false

structure ConnectOutcome where
  status : Nat
  state : ServerState
  engineCalls : List EngineCall
deriving DecidableEq

structure ProduceOutcome where
  status : Nat
  body : Option Nat
  state : ServerState
  engineCalls : List EngineCall
deriving DecidableEq

/-- Response body of `POST /consume`. -/
structure ConsumeResponse where
  id : Nat
  producerId : Nat
  kind : MediaKind
  rtpParameters : Nat
  type : Nat
  producerPaused : Bool
deriving DecidableEq

structure ConsumeOutcome where
  status : Nat
  body : Option ConsumeResponse
  state : ServerState
  engineCalls : List EngineCall
deriving DecidableEq

structure ResumeOutcome where
  status : Nat
  state : ServerState
  engineCalls : List EngineCall
deriving DecidableEq

/-- `POST /connect_transport` (lib/api.js): look up the transport, 404 if
absent, otherwise call `transport.connect({ dtlsParameters })` — 204 on
success, 500 if the engine call throws (`engineOk` models the try/catch). -/
def connectTransport (s : ServerState) (transportId dtlsParameters : Nat)
    (engineOk : Bool) : ConnectOutcome :=
  match lookupTransport s transportId with
  | none => { status := 404, state := s, engineCalls := [] }
  | some _ =>
    if engineOk then
      let newTransports :=
        s.transports.map (fun t => if t.id == transportId then { t with connected := true } else t)
      { status := 204, state := { s with transports := newTransports },
        engineCalls := [.connectCall transportId dtlsParameters] }
    else
      { status := 500, state := s, engineCalls := [.connectCall transportId dtlsParameters] }

/-- `POST /produce` (lib/api.js): look up the transport, 404 if absent,
otherwise `transport.produce({ kind, rtpParameters })` and store the new
producer.  `freshId` is the engine-assigned producer ID; an engine-created
producer starts unpaused. -/
def produce (s : ServerState) (transportId : Nat) (kind : MediaKind)
    (rtpParameters freshId : Nat) (engineOk : Bool) : ProduceOutcome :=
  match lookupTransport s transportId with
  | none => { status := 404, body := none, state := s, engineCalls := [] }
  | some _ =>
    if engineOk then
      let producer : Producer :=
        { id := freshId, transportId := transportId, kind := kind,
          rtpParameters := rtpParameters, paused := false }
      { status := 200, body := some freshId,
        state := { s with producers := producer :: s.producers },
        engineCalls := [.produceCall transportId kind rtpParameters] }
    else
      { status := 500, body := none, state := s,
        engineCalls := [.produceCall transportId kind rtpParameters] }

/-- `POST /consume` (lib/api.js): look up transport and producer (404 if
either is absent, before any engine call), check `router.canConsume` (400 if
false), then `recvTransport.consume({ producerId, rtpCapabilities,
paused: true })`, store the consumer and register its `transportclose` /
`producerclose` hooks.  `canConsumeResult` is the engine's answer to
`canConsume`; `freshId`, `newRtpParameters`, `newType` are the
engine-assigned consumer fields; the engine sets `producerPaused` from the
source producer's pause state at creation time. -/
def consume (s : ServerState) (transportId producerId rtpCapabilities : Nat)
    (canConsumeResult : Bool) (freshId newRtpParameters newType : Nat)
    (engineOk : Bool) : ConsumeOutcome :=
  match lookupTransport s transportId, lookupProducer s producerId with
  | some _, some producer =>
    if !canConsumeResult then
      { status := 400, body := none, state := s,
        engineCalls := [.canConsumeCall producerId rtpCapabilities] }
    else if engineOk then
      let consumer : Consumer :=
        { id := freshId, transportId := transportId, producerId := producerId,
          kind := producer.kind, rtpParameters := newRtpParameters,
          type := newType, paused := true, producerPaused := producer.paused }
      let responseBody : ConsumeResponse :=
        { id := freshId, producerId := producerId, kind := producer.kind,
          rtpParameters := newRtpParameters, type := newType,
          producerPaused := producer.paused }
      { status := 200, body := some responseBody,
        state := { s with consumers := consumer :: s.consumers },
        engineCalls := [.canConsumeCall producerId rtpCapabilities,
          .consumeCall transportId producerId rtpCapabilities true] }
    else
      { status := 500, body := none, state := s,
        engineCalls := [.canConsumeCall producerId rtpCapabilities,
          .consumeCall transportId producerId rtpCapabilities true] }
  | _, _ => { status := 404, body := none, state := s, engineCalls := [] }

/-- `POST /resume_consumer` (lib/api.js): look up the consumer, 404 if
absent, otherwise `consumer.resume()` and 204.  The engine resume is
modelled from the spec as an unconditional unpause that also succeeds on an
already-active consumer (idempotent no-op, not an error). -/
def resumeConsumer (s : ServerState) (consumerId : Nat) (engineOk : Bool) :
    ResumeOutcome :=
  match lookupConsumer s consumerId with
  | none => { status := 404, state := s, engineCalls := [] }
  | some _ =>
    if engineOk then
      let newConsumers :=
        s.consumers.map (fun c => if c.id == consumerId then { c with paused := false } else c)
      { status := 204, state := { s with consumers := newConsumers },
        engineCalls := [.resumeCall consumerId] }
    else
      { status := 500, state := s, engineCalls := [.resumeCall consumerId] }

/-- Does the registry attribute producer `producerId` to transport
`transportId`? -/
def producerOnTransport (s : ServerState) (producerId transportId : Nat) : Bool :=
  match lookupProducer s producerId with
  | some p => p.transportId == transportId
  | none => false

/-- The `dtlsstatechange` handler for state `closed` (lib/api.js lines
39-45): `transport.close()` then `serverState.transports.delete(transport.id)`.
Modelled from the spec: closing the transport makes the engine deliver
`transportclose` to every consumer hosted on it and `producerclose` to every
consumer whose source producer is hosted on it; the consumer hooks
registered in `POST /consume` then delete those consumers from
`serverState.consumers`.  No hook is ever registered for producers and the
handler itself touches only the transports map, so `serverState.producers`
is left unchanged. -/
def dtlsStateChangeClosed (s : ServerState) (transportId : Nat) : ServerState :=
  let survivingConsumers :=
    s.consumers.filter (fun c =>
      c.transportId != transportId && !(producerOnTransport s c.producerId transportId))
  { transports := s.transports.filter (fun t => t.id != transportId),
    producers := s.producers,
    consumers := survivingConsumers }

/-- The `producerclose` hook registered in `POST /consume`: when the engine
closes producer `producerId`, every consumer subscribed to it deletes itself
from `serverState.consumers` (delivery of the event to each such consumer is
modelled from the spec). -/
def producerCloseEvent (s : ServerState) (producerId : Nat) : ServerState :=
  { s with consumers := s.consumers.filter (fun c => c.producerId != producerId) }

/-- The hard-coded default of `process.env.MEDIA_SERVER_API_KEY || '...'`. -/
def defaultApiKey : String := "default-insecure-key"

/-- `const API_KEY = process.env.MEDIA_SERVER_API_KEY || 'default-insecure-key'`:
JS `||` falls back on a missing or empty environment variable. -/
def resolveApiKey (envKey : Option String) : String :=
  match envKey with
  | none => defaultApiKey
  | some s => if s == "" then defaultApiKey else s

inductive AuthDecision where
  | unauthorized
  | allowed
deriving DecidableEq

/-- JS truthiness of `req.headers['x-api-key']`: falsy when absent or empty. -/
def headerFalsy (h : Option String) : Bool :=
  match h with
  | none => true
  | some s => s == ""

/-- The API-key middleware of lib/api.js lines 12-23: on `!apiKey || apiKey
!== API_KEY`, warn-and-continue when the configured key is the default,
otherwise reject with 401 Unauthorized. -/
def apiKeyMiddleware (apiKeyConfigured : String) (header : Option String) : AuthDecision :=
  if headerFalsy header || header != some apiKeyConfigured then
    if apiKeyConfigured == defaultApiKey then AuthDecision.allowed
    else AuthDecision.unauthorized
  else AuthDecision.allowed

/-- A codec entry of `config.router.mediaCodecs` (config.js). -/
structure Codec where
  kind : MediaKind
  mimeType : String
  clockRate : Nat
  channels : Option Nat
deriving DecidableEq

/-- `config.router.mediaCodecs` from config.js: opus audio and VP8 video. -/
def mediaCodecs : List Codec :=
  [ { kind := .audio, mimeType := "audio/opus", clockRate := 48000, channels := some 2 },
    { kind := .video, mimeType := "video/VP8", clockRate := 90000, channels := none } ]

/-- The engine router handle exposing `rtpCapabilities`. -/
structure RouterHandle where
  rtpCapabilities : List Codec
deriving DecidableEq

/-- Modelled from the spec: `worker.createRouter({ mediaCodecs })` yields a
router whose capability set is derived from the configured codec list (the
spec's end-to-end scenario reads it back as "the configured codec list
containing opus (audio) and VP8 (video)"). -/
def createRouter (cfg : List Codec) : RouterHandle :=
  { rtpCapabilities := cfg }

structure CapabilitiesOutcome where
  status : Nat
  body : Option (List Codec)
deriving DecidableEq

/-- `GET /router_capabilities` (lib/api.js lines 51-55): 503 when
`getRouter()` is not yet initialized, otherwise the router's
`rtpCapabilities`. -/
def routerCapabilities (r : Option RouterHandle) : CapabilitiesOutcome :=
  match r with
  | none => { status := 503, body := none }
  | some mediasoupRouter => { status := 200, body := some mediasoupRouter.rtpCapabilities }

/-- One entry of `config.webRtcTransport.listenIps`. -/
structure ListenIp where
  ip : String
  announcedIp : Option String
deriving DecidableEq

/-- The parts of `config.webRtcTransport` read by `createWebRtcTransport`. -/
structure WebRtcTransportConfig where
  listenIps : List ListenIp
  initialAvailableOutgoingBitrate : Nat
deriving DecidableEq

/-- The options record passed to `router.createWebRtcTransport`. -/
structure WebRtcTransportOptions where
  listenIps : List ListenIp
  enableUdp : Bool
  enableTcp : Bool
  preferUdp : Bool
  initialAvailableOutgoingBitrate : Nat
deriving DecidableEq

/-- The options `createWebRtcTransport(isSending)` (server.js second
variant) passes to `router.createWebRtcTransport`: the `isSending` argument
is received but never read, so the options depend only on the config. -/
def createWebRtcTransportOptions (cfg : WebRtcTransportConfig)
    (isSending : Option Bool) : WebRtcTransportOptions :=
  { listenIps := cfg.listenIps, enableUdp := true, enableTcp := true,
    preferUdp := true,
    initialAvailableOutgoingBitrate := cfg.initialAvailableOutgoingBitrate }

/-- The engine transport handle fields read by `POST /create_transport`. -/
structure EngineTransport where
  id : Nat
  iceParameters : Nat
  iceCandidates : Nat
  dtlsParameters : Nat
deriving DecidableEq

/-- Response body of `POST /create_transport`. -/
structure CreateTransportResponse where
  id : Nat
  iceParameters : Nat
  iceCandidates : Nat
  dtlsParameters : Nat
deriving DecidableEq

/-- The `POST /create_transport` response built from the engine transport;
`is_sending` from the request body is threaded to `createWebRtcTransport`
(which ignores it) and never influences the response fields. -/
def createTransportResponse (isSending : Option Bool)
    (t : EngineTransport) : CreateTransportResponse :=
  { id := t.id, iceParameters := t.iceParameters,
    iceCandidates := t.iceCandidates, dtlsParameters := t.dtlsParameters }

/-! Concrete registry states used to exercise the handlers. -/

def exTransport1 : Transport := { id := 1, connected := true }

def exTransport2 : Transport := { id := 2, connected := true }

def exProducer : Producer :=
  { id := 10, transportId := 1, kind := .audio, rtpParameters := 7, paused := false }

def exConsumer : Consumer :=
  { id := 20, transportId := 2, producerId := 10, kind := .audio,
    rtpParameters := 8, type := 0, paused := true, producerPaused := false }

/-- Transport 1 hosts producer 10; transport 2 hosts consumer 20 which is
subscribed to producer 10. -/
def exState : ServerState :=
  { transports := [exTransport1, exTransport2],
    producers := [exProducer],
    consumers := [exConsumer] }

/-- The empty registry. -/
def emptyState : ServerState :=
  { transports := [], producers := [], consumers := [] }

/-! Helper lemmas. -/

/-- `API_KEY` can never resolve to the empty string: JS `||` replaces a
missing or empty environment value with the default. -/
theorem resolveApiKey_ne_empty (envKey : Option String) : resolveApiKey envKey ≠ "" := by
  cases envKey with
  | none =>
    show defaultApiKey ≠ ""
    decide
  | some s =>
    by_cases h : s = ""
    · simp [resolveApiKey, h]
      decide
    · simp [resolveApiKey, h]

/-- Characterisation of the middleware on any non-empty configured key. -/
theorem apiKeyMiddleware_unauthorized_iff (k : String) (header : Option String)
    (hk : k ≠ "") :
    apiKeyMiddleware k header = AuthDecision.unauthorized ↔
      (k ≠ defaultApiKey ∧ header ≠ some k) := by
  unfold apiKeyMiddleware
  cases header with
  | none =>
    by_cases hd : k = defaultApiKey <;> simp [headerFalsy, hd]
  | some h =>
    by_cases hh : h = k
    · subst hh
      simp [headerFalsy, hk]
    · by_cases hd : k = defaultApiKey <;> simp [headerFalsy, hh, hd]

/-! The claims. -/

/-- C7: the shared-secret check rejects a request with 401 Unauthorized if
and only if a non-default secret is configured and the request's x-api-key
header is missing or does not equal it; with the default secret every
request is allowed through regardless of the header. -/
theorem api_key_check_spec (envKey header : Option String) :
    apiKeyMiddleware (resolveApiKey envKey) header = AuthDecision.unauthorized ↔
      (resolveApiKey envKey ≠ defaultApiKey ∧
        (header = none ∨ header ≠ some (resolveApiKey envKey))) := by
  rw [apiKeyMiddleware_unauthorized_iff _ _ (resolveApiKey_ne_empty envKey)]
  constructor
  · rintro ⟨h1, h2⟩
    exact ⟨h1, Or.inr h2⟩
  · rintro ⟨h1, h2 | h2⟩
    · subst h2
      exact ⟨h1, by simp⟩
    · exact ⟨h1, h2⟩

/-- C8: `GET /router_capabilities` returns 503 whenever the router is not
yet initialized, and otherwise returns the router's capability set, which
for the configured codec list contains opus (audio) and VP8 (video). -/
theorem router_capabilities_spec :
    (routerCapabilities none).status = 503 ∧
    (∀ r, (routerCapabilities (some r)).status = 200 ∧
      (routerCapabilities (some r)).body = some r.rtpCapabilities) ∧
    ((createRouter mediaCodecs).rtpCapabilities.any
      (fun c => c.kind == .audio && c.mimeType == "audio/opus")) = true ∧
    ((createRouter mediaCodecs).rtpCapabilities.any
      (fun c => c.kind == .video && c.mimeType == "video/VP8")) = true := by
  refine ⟨rfl, fun r => ⟨rfl, rfl⟩, ?_, ?_⟩ <;> decide

/-- C9: transport creation is direction-independent — for any value of the
`is_sending` request field (true, false or absent), `createWebRtcTransport`
passes identical options to the engine and the `create_transport` response
built from the resulting engine transport is the same. -/
theorem create_transport_direction_independent
    (cfg : WebRtcTransportConfig) (a b : Option Bool) (t : EngineTransport) :
    createWebRtcTransportOptions cfg a = createWebRtcTransportOptions cfg b ∧
    createTransportResponse a t = createTransportResponse b t :=
  ⟨rfl, rfl⟩

/-- C1: contrary to the claim, the DTLS-closed cleanup leaves the producer
registered.  Concretely: transport 1 exists and owns producer 10, yet after
the DTLS-closed event on transport 1 the producer lookup still succeeds
(the handler deletes only the transport entry); the dependent consumer 20
is indeed removed. -/
theorem transport_close_leaves_producer_registered :
    lookupTransport exState 1 = some exTransport1 ∧
    exProducer.transportId = 1 ∧
    lookupProducer exState 10 = some exProducer ∧
    lookupProducer (dtlsStateChangeClosed exState 1) 10 = some exProducer ∧
    lookupConsumer (dtlsStateChangeClosed exState 1) 20 = none := by
  decide

/-- C4: every `connect_transport`, `produce`, `consume` or `resume_consumer`
request naming an ID absent from the corresponding registry map returns 404
with no engine call issued and the registry state unchanged. -/
theorem not_found_before_engine
    (s : ServerState) (tid pid cid dtls prodRtp freshId rc nrp nty : Nat)
    (kind : MediaKind) (cc eok : Bool) :
    (lookupTransport s tid = none →
      connectTransport s tid dtls eok =
        { status := 404, state := s, engineCalls := [] }) ∧
    (lookupTransport s tid = none →
      produce s tid kind prodRtp freshId eok =
        { status := 404, body := none, state := s, engineCalls := [] }) ∧
    (lookupTransport s tid = none ∨ lookupProducer s pid = none →
      consume s tid pid rc cc freshId nrp nty eok =
        { status := 404, body := none, state := s, engineCalls := [] }) ∧
    (lookupConsumer s cid = none →
      resumeConsumer s cid eok =
        { status := 404, state := s, engineCalls := [] }) := by
  refine ⟨?_, ?_, ?_, ?_⟩
  · intro h
    simp [connectTransport, h]
  · intro h
    simp [produce, h]
  · rintro (h | h)
    · cases hp : lookupProducer s pid <;> simp [consume, h, hp]
    · cases ht : lookupTransport s tid <;> simp [consume, ht, h]
  · intro h
    simp [resumeConsumer, h]

/-- Witness for C4 at the empty registry. -/
theorem not_found_before_engine_witness :
    connectTransport emptyState 1 0 true =
      { status := 404, state := emptyState, engineCalls := [] } ∧
    produce emptyState 1 MediaKind.audio 0 5 true =
      { status := 404, body := none, state := emptyState, engineCalls := [] } ∧
    consume emptyState 1 10 0 true 6 0 0 true =
      { status := 404, body := none, state := emptyState, engineCalls := [] } ∧
    resumeConsumer emptyState 20 true =
      { status := 404, state := emptyState, engineCalls := [] } := by
  have h := not_found_before_engine emptyState 1 10 20 0 0 5 0 0 0 MediaKind.audio true true
  exact ⟨h.1 (by decide), h.2.1 (by decide), h.2.2.1 (Or.inl (by decide)), h.2.2.2 (by decide)⟩

/-- C3: a `consume` request whose transport and producer both exist but
whose capabilities fail the `canConsume` check returns 400, leaves the
registry (in particular the consumers map) unchanged, and issues no engine
consume call. -/
theorem consume_unsupported_no_consumer
    (s : ServerState) (tid pid rc freshId nrp nty : Nat) (eok : Bool)
    (t : Transport) (p : Producer)
    (ht : lookupTransport s tid = some t) (hp : lookupProducer s pid = some p) :
    (consume s tid pid rc false freshId nrp nty eok).status = 400 ∧
    (consume s tid pid rc false freshId nrp nty eok).state = s ∧
    ∀ call ∈ (consume s tid pid rc false freshId nrp nty eok).engineCalls,
      call.isConsumeCall = false := by
  simp [consume, ht, hp, EngineCall.isConsumeCall]

/-- Witness for C3: consuming producer 10 from transport 2 with
incompatible capabilities. -/
theorem consume_unsupported_no_consumer_witness :
    (consume exState 2 10 0 false 30 0 0 true).status = 400 ∧
    (consume exState 2 10 0 false 30 0 0 true).state = exState := by
  have h := consume_unsupported_no_consumer exState 2 10 0 30 0 0 true
    exTransport2 exProducer (by decide) (by decide)
  exact ⟨h.1, h.2.1⟩

/-- C5: a successful `consume` always issues the engine consume call with
`paused = true`, stores the new consumer paused, and answers with exactly
`{id, producerId, kind, rtpParameters, type, producerPaused}` where
`producerPaused` is the source producer's pause state at creation time. -/
theorem consume_starts_paused
    (s : ServerState) (tid pid rc freshId nrp nty : Nat)
    (t : Transport) (p : Producer)
    (ht : lookupTransport s tid = some t) (hp : lookupProducer s pid = some p) :
    (consume s tid pid rc true freshId nrp nty true).status = 200 ∧
    (consume s tid pid rc true freshId nrp nty true).engineCalls =
      [.canConsumeCall pid rc, .consumeCall tid pid rc true] ∧
    (consume s tid pid rc true freshId nrp nty true).body =
      some { id := freshId, producerId := pid, kind := p.kind,
             rtpParameters := nrp, type := nty, producerPaused := p.paused } ∧
    lookupConsumer (consume s tid pid rc true freshId nrp nty true).state freshId =
      some { id := freshId, transportId := tid, producerId := pid, kind := p.kind,
             rtpParameters := nrp, type := nty, paused := true,
             producerPaused := p.paused } := by
  simp [consume, ht, hp, lookupConsumer]

/-- Witness for C5: consuming producer 10 (unpaused) from transport 2. -/
theorem consume_starts_paused_witness :
    (consume exState 2 10 0 true 30 9 1 true).status = 200 ∧
    (consume exState 2 10 0 true 30 9 1 true).engineCalls =
      [.canConsumeCall 10 0, .consumeCall 2 10 0 true] ∧
    (consume exState 2 10 0 true 30 9 1 true).body =
      some { id := 30, producerId := 10, kind := MediaKind.audio,
             rtpParameters := 9, type := 1, producerPaused := false } := by
  have h := consume_starts_paused exState 2 10 0 30 9 1
    exTransport2 exProducer (by decide) (by decide)
  exact ⟨h.1, h.2.1, h.2.2.1⟩

/-- Evaluation of `resume_consumer` when the consumer is registered and the
engine call succeeds. -/
theorem resumeConsumer_found (s : ServerState) (cid : Nat) (c : Consumer)
    (hc : lookupConsumer s cid = some c) :
    resumeConsumer s cid true =
      { status := 204,
        state := { s with consumers := s.consumers.map (fun x => if x.id == cid then { x with paused := false } else x) },
        engineCalls := [.resumeCall cid] } := by
  unfold resumeConsumer
  rw [hc]
  rfl

/-- Resuming rewrites the registry entry for the target consumer to its
unpaused copy and fixes every other entry. -/
theorem lookup_after_resume (s : ServerState) (cid : Nat) (c : Consumer)
    (hc : lookupConsumer s cid = some c) :
    lookupConsumer (resumeConsumer s cid true).state cid =
      some { c with paused := false } := by
  have hfind : s.consumers.find? (fun x => x.id == cid) = some c := hc
  have hcid : (c.id == cid) = true := by
    have h := List.find?_some hfind
    exact h
  rw [resumeConsumer_found s cid c hc]
  show ((s.consumers.map (fun x => if x.id == cid then { x with paused := false } else x)).find? (fun x => x.id == cid)) = some { c with paused := false }
  rw [List.find?_map]
  have hcomp : ((fun x : Consumer => x.id == cid) ∘
      (fun x : Consumer => if x.id == cid then { x with paused := false } else x)) =
      fun x : Consumer => x.id == cid := by
    funext x
    by_cases h : x.id = cid <;> simp [Function.comp, h]
  rw [hcomp, hfind]
  have hcid2 : c.id = cid := by simpa using hcid
  simp [hcid2]

/-- The per-entry resume update is idempotent on the whole consumers list. -/
theorem resume_map_idem (cid : Nat) (l : List Consumer) :
    (l.map (fun c => if c.id == cid then { c with paused := false } else c)).map
        (fun c => if c.id == cid then { c with paused := false } else c) =
      l.map (fun c => if c.id == cid then { c with paused := false } else c) := by
  rw [List.map_map]
  apply List.map_congr_left
  intro a _
  by_cases h : a.id = cid <;> simp [Function.comp, h]

/-- C6: `resume_consumer` is idempotent on success — for a consumer present
in the registry the first resume unpauses it and returns 204, and resuming
again on the already-active consumer is a state-preserving no-op that also
returns 204. -/
theorem resume_consumer_idempotent
    (s : ServerState) (cid : Nat) (c : Consumer)
    (hc : lookupConsumer s cid = some c) :
    (resumeConsumer s cid true).status = 204 ∧
    lookupConsumer (resumeConsumer s cid true).state cid =
      some { c with paused := false } ∧
    (resumeConsumer (resumeConsumer s cid true).state cid true).status = 204 ∧
    (resumeConsumer (resumeConsumer s cid true).state cid true).state =
      (resumeConsumer s cid true).state := by
  have hr1 := resumeConsumer_found s cid c hc
  have h2 := lookup_after_resume s cid c hc
  have hr2 := resumeConsumer_found (resumeConsumer s cid true).state cid
    { c with paused := false } h2
  refine ⟨by rw [hr1], h2, by rw [hr2], ?_⟩
  rw [hr2, hr1]
  simp [resume_map_idem]
  intro a ha
  by_cases h : a.id = cid <;> simp [h]

/-- Witness for C6 at consumer 20 of the concrete registry. -/
theorem resume_consumer_idempotent_witness :
    (resumeConsumer exState 20 true).status = 204 ∧
    lookupConsumer (resumeConsumer exState 20 true).state 20 =
      some { exConsumer with paused := false } ∧
    (resumeConsumer (resumeConsumer exState 20 true).state 20 true).status = 204 ∧
    (resumeConsumer (resumeConsumer exState 20 true).state 20 true).state =
      (resumeConsumer exState 20 true).state :=
  resume_consumer_idempotent exState 20 exConsumer (by decide)

/-- C2: when producer P closes — directly via the engine's `producerclose`
event or because its owning transport closes — every consumer whose
`producerId` is P's ID is removed from the consumers registry regardless of
which transport hosts it, so a subsequent lookup (e.g. by
`resume_consumer`) reports 404 NotFound. -/
theorem producer_close_cascades_to_consumers
    (s : ServerState) (tid pid cid : Nat) (p : Producer)
    (hp : lookupProducer s pid = some p) (ht : p.transportId = tid)
    (hcid : ∀ c ∈ s.consumers, c.id = cid → c.producerId = pid) :
    (∀ c ∈ (dtlsStateChangeClosed s tid).consumers, c.producerId ≠ pid) ∧
    (∀ c ∈ (producerCloseEvent s pid).consumers, c.producerId ≠ pid) ∧
    lookupConsumer (dtlsStateChangeClosed s tid) cid = none ∧
    (resumeConsumer (dtlsStateChangeClosed s tid) cid true).status = 404 ∧
    lookupConsumer (producerCloseEvent s pid) cid = none ∧
    (resumeConsumer (producerCloseEvent s pid) cid true).status = 404 := by
  have key1 : ∀ c ∈ (dtlsStateChangeClosed s tid).consumers, c.producerId ≠ pid := by
    intro c hcmem hcp
    simp only [dtlsStateChangeClosed] at hcmem
    have hpred := (List.mem_filter.mp hcmem).2
    rw [hcp] at hpred
    simp [producerOnTransport, hp, ht] at hpred
  have key2 : ∀ c ∈ (producerCloseEvent s pid).consumers, c.producerId ≠ pid := by
    intro c hcmem
    simp only [producerCloseEvent] at hcmem
    have hpred := (List.mem_filter.mp hcmem).2
    simpa using hpred
  have mem1 : ∀ c ∈ (dtlsStateChangeClosed s tid).consumers, c ∈ s.consumers := by
    intro c hcmem
    simp only [dtlsStateChangeClosed] at hcmem
    exact (List.mem_filter.mp hcmem).1
  have mem2 : ∀ c ∈ (producerCloseEvent s pid).consumers, c ∈ s.consumers := by
    intro c hcmem
    simp only [producerCloseEvent] at hcmem
    exact (List.mem_filter.mp hcmem).1
  have look1 : lookupConsumer (dtlsStateChangeClosed s tid) cid = none := by
    simp only [lookupConsumer]
    rw [List.find?_eq_none]
    intro c hcmem hcbeq
    exact key1 c hcmem (hcid c (mem1 c hcmem) (by simpa using hcbeq))
  have look2 : lookupConsumer (producerCloseEvent s pid) cid = none := by
    simp only [lookupConsumer]
    rw [List.find?_eq_none]
    intro c hcmem hcbeq
    exact key2 c hcmem (hcid c (mem2 c hcmem) (by simpa using hcbeq))
  exact ⟨key1, key2, look1, by simp [resumeConsumer, look1], look2,
    by simp [resumeConsumer, look2]⟩

/-- Witness for C2: closing transport 1 (owner of producer 10) or producer
10 itself removes consumer 20, hosted on the unrelated transport 2. -/
theorem producer_close_cascades_to_consumers_witness :
    lookupConsumer (dtlsStateChangeClosed exState 1) 20 = none ∧
    (resumeConsumer (dtlsStateChangeClosed exState 1) 20 true).status = 404 ∧
    lookupConsumer (producerCloseEvent exState 10) 20 = none ∧
    (resumeConsumer (producerCloseEvent exState 10) 20 true).status = 404 := by
  have h := producer_close_cascades_to_consumers exState 1 10 20 exProducer
    (by decide) (by decide) (by decide)
  exact ⟨h.2.2.1, h.2.2.2.1, h.2.2.2.2.1, h.2.2.2.2.2⟩

/-- C10: no handler or event of the source ever removes an entry from the
producers map — `produce` only prepends, the DTLS-closed cleanup deletes
only the transport's own entry (and, via the hooks, consumers) — so a
producer stays registered and findable after its owning transport closed. -/
theorem producers_map_never_shrinks
    (s : ServerState) (tid pid cid dtls prodRtp freshId rc nrp nty : Nat)
    (kind : MediaKind) (cc eok : Bool) (p : Producer) :
    (connectTransport s tid dtls eok).state.producers = s.producers ∧
    (consume s tid pid rc cc freshId nrp nty eok).state.producers = s.producers ∧
    (resumeConsumer s cid eok).state.producers = s.producers ∧
    (dtlsStateChangeClosed s tid).producers = s.producers ∧
    (producerCloseEvent s pid).producers = s.producers ∧
    ((produce s tid kind prodRtp freshId eok).state.producers = s.producers ∨
      (produce s tid kind prodRtp freshId eok).state.producers =
        { id := freshId, transportId := tid, kind := kind,
          rtpParameters := prodRtp, paused := false } :: s.producers) ∧
    (lookupProducer s pid = some p →
      lookupProducer (dtlsStateChangeClosed s tid) pid = some p) := by
  refine ⟨?_, ?_, ?_, rfl, rfl, ?_, ?_⟩
  · cases h : lookupTransport s tid <;> cases eok <;> simp [connectTransport, h]
  · cases h1 : lookupTransport s tid <;> cases h2 : lookupProducer s pid <;>
      cases cc <;> cases eok <;> simp [consume, h1, h2]
  · cases h : lookupConsumer s cid <;> cases eok <;> simp [resumeConsumer, h]
  · cases h : lookupTransport s tid with
    | none => exact Or.inl (by simp [produce, h])
    | some t =>
      cases eok with
      | false => exact Or.inl (by simp [produce, h])
      | true => exact Or.inr (by simp [produce, h])
  · intro h
    exact h

/-- Witness for C10: producer 10 is still found after transport 1 closes. -/
theorem producers_map_never_shrinks_witness :
    lookupProducer (dtlsStateChangeClosed exState 1) 10 = some exProducer :=
  (producers_map_never_shrinks exState 1 10 20 0 0 5 0 0 0
    MediaKind.audio true true exProducer).2.2.2.2.2.2 (by decide)

end MediaPlane
